import Mathlib

/-!
Verification of the athesa workflow-engine specification against a shallow
embedding of the repository.  The engine modules themselves
(`athesa/events/emitter.py`, `athesa/engine/state_machine.py`,
`athesa/engine/strategies.py`, `athesa/engine/commands.py`,
`athesa/engine/detector.py`, the action executor, the process runner and
`athesa/factory.py`) are not present in the source tree — only their unit
tests, the `ProcessProtocol` declaration and the `basic_login` example are —
so those components are modelled from the specification (each such
definition carries a `Modelled from the spec:` doc comment).  The example
process definitions are embedded from `src/examples/basic_login/process.py`.
-/

namespace Athesa

/-- A locator/selector as used by the bridge: a `(by, value)` pair such as
`("css selector", "input")`, matching the Python tuples in the tests. -/
abbrev Locator := String × String

/-- One synchronous call into the Session Bridge (spec §6), or one of the
executor-side blocking effects (the WAIT sleep).  Command handlers and
detection strategies are modelled as returning the ordered trace of the
calls they perform. -/
inductive BridgeCall where
  | navigate (url : String)
  | click (sel : Locator)
  | type_text (sel : Locator) (text : String)
  | upload_file (sel : Locator) (path : String)
  | execute_script (script : String) (args : List String)
  | refresh_page
  | switch_to_window (h : String)
  | close_current_window
  | switch_to_frame (f : String)
  | switch_to_default_content
  | is_visible (loc : Locator)
  | is_existing (loc : Locator)
  | sleep (duration : Nat)
  | wait_for_condition
deriving DecidableEq

/-- The query half of the Session Bridge (spec §6): the two boolean checks
consulted by detection strategies.  The side-effecting half is recorded
only as a `BridgeCall` trace. -/
structure Bridge where
  is_visible : Locator → Bool
  is_existing : Locator → Bool

/-- Detection-strategy tags, from `athesa.core.screen.DetectionStrategy`
(used by `src/tests/unit/test_detection_strategies.py` and the example). -/
inductive DetectionStrategy where
  | VISIBLE_AND_ENABLED
  | PRESENCE_ONLY
  | CUSTOM
deriving DecidableEq

/-- Modelled from the spec (§4.3, strategies; module
`athesa/engine/strategies.py` is absent from src/): `is_present` for each
strategy variant, returning the boolean result together with the trace of
bridge calls made.  visible-and-enabled delegates to the bridge's
visibility check, presence-only to its existence check, and custom returns
true unconditionally calling neither. -/
def strategy_is_present : DetectionStrategy → Bridge → Locator → Bool × List BridgeCall
  | .VISIBLE_AND_ENABLED, b, loc => (b.is_visible loc, [.is_visible loc])
  | .PRESENCE_ONLY, b, loc => (b.is_existing loc, [.is_existing loc])
  | .CUSTOM, _, _ => (true, [])

/-- Whether a bridge call is a visibility check. -/
def BridgeCall.isVisibilityCheck : BridgeCall → Bool
  | .is_visible _ => true
  | _ => false

/-- Whether a bridge call is an existence check. -/
def BridgeCall.isExistenceCheck : BridgeCall → Bool
  | .is_existing _ => true
  | _ => false

/-- A screen definition, as constructed in
`src/examples/basic_login/process.py`: a screen-type tag, the selector
passed to the bridge, a diagnostic name, and the detection-strategy tag. -/
structure ScreenDefinition (τ : Type) where
  type : τ
  selector : Locator
  selector_name : String
  detection_strategy : DetectionStrategy

/-- State machine instance, modelled from the spec (§4.2; module
`athesa/engine/state_machine.py` is absent from src/).  `events` is the
ordered log of `state_changed (old, new)` events the machine has published
on its event bus. -/
structure StateMachine (σ : Type) where
  current_state : σ
  name : String
  events : List (σ × σ)

/-- Modelled from the spec (§4.2): the machine is constructed with an
initial state descriptor (a constructor, instantiated here by applying it)
and a process name; no event is published at construction. -/
def mkStateMachine {σ : Type} (descr : Unit → σ) (name : String) : StateMachine σ :=
  ⟨descr (), name, []⟩

/-- Modelled from the spec (§4.2): `transition_to(newStateInstance)` records
the previous state, sets `current_state` to the new instance, and publishes
`state_changed(old, new)`. -/
def StateMachine.transition_to {σ : Type} (m : StateMachine σ) (new : σ) : StateMachine σ :=
  ⟨new, m.name, m.events ++ [(m.current_state, new)]⟩

/-- Modelled from the spec (§4.2): `reset(stateDescriptor)` constructs a
fresh instance from the descriptor and sets it as current without
publishing any event. -/
def StateMachine.reset {σ : Type} (m : StateMachine σ) (descr : Unit → σ) : StateMachine σ :=
  ⟨descr (), m.name, m.events⟩

/-- Run a whole sequence of `transition_to` calls in order. -/
def run_transitions {σ : Type} (m : StateMachine σ) (ss : List σ) : StateMachine σ :=
  ss.foldl StateMachine.transition_to m

/-- The expected `state_changed` log for a sequence of transitions starting
from current state `c`: each pair's second component is the state passed,
its first the state that was current immediately before that call. -/
def transition_pairs {σ : Type} (c : σ) : List σ → List (σ × σ)
  | [] => []
  | s :: rest => (c, s) :: transition_pairs s rest

/-- Modelled from the spec (§4.3; module `athesa/engine/detector.py` is
absent from src/): probing a single candidate screen-type — look up its
`ScreenDefinition` in the process's screens table (first entry whose
`type` matches), select the strategy bound to its `detection_strategy`
tag and call `is_present(bridge, selector)`; a candidate with no
definition never matches and makes no bridge call. -/
def candidateProbe {τ : Type} [DecidableEq τ] (screens : List (ScreenDefinition τ))
    (b : Bridge) (c : τ) : Bool × List BridgeCall :=
  match screens.find? (fun s => decide (s.type = c)) with
  | some sd => strategy_is_present sd.detection_strategy b sd.selector
  | none => (false, [])

/-- Result of a detection pass: the matched screen-type if any, the
`screen_detected` events published (their payloads), and the ordered trace
of bridge calls made. -/
structure DetectResult (τ : Type) where
  found : Option τ
  events : List τ
  calls : List BridgeCall

/-- Modelled from the spec (§4.3): walk the candidate list in order; the
first candidate whose strategy returns true is the match — detection stops
immediately, publishes `screen_detected` for it and probes nothing further;
if no candidate matches, detection fails and no event is published. -/
def detectFrom {τ : Type} [DecidableEq τ] (screens : List (ScreenDefinition τ))
    (b : Bridge) : List τ → DetectResult τ
  | [] => ⟨none, [], []⟩
  | c :: rest =>
    let p := candidateProbe screens b c
    if p.1 then ⟨some c, [c], p.2⟩
    else
      let r := detectFrom screens b rest
      ⟨r.found, r.events, p.2 ++ r.calls⟩

/-- Modelled from the spec (§4.3): global-interrupt screen-types are
checked first, in declaration order, then the current state's expected
screen-types in the order the state declares them. -/
def detect {τ : Type} [DecidableEq τ] (screens : List (ScreenDefinition τ))
    (global_interrupts expected : List τ) (b : Bridge) : DetectResult τ :=
  detectFrom screens b (global_interrupts ++ expected)

/-- Command kinds, from `athesa.core.action.ActionCommand` (used throughout
the tests and the example). -/
inductive ActionCommand where
  | NAVIGATE
  | REFRESH
  | CLICK
  | TYPE
  | CLEAR
  | UPLOAD_FILE
  | WAIT
  | WAIT_FOR_CONDITION
  | EXECUTE_SCRIPT
  | SWITCH_WINDOW
  | CLOSE_WINDOW
  | OPEN_NEW_TAB
  | SWITCH_TO_FRAME
  | SWITCH_TO_DEFAULT
  | CUSTOM
deriving DecidableEq

/-- Errors a command handler can raise: a required param absent from the
`params` mapping, or the CUSTOM handler's invalid-action error
(`ValueError("CUSTOM action requires 'callable'")` in the tests). -/
inductive CmdError where
  | missing_param
  | invalid_action
deriving DecidableEq

/-- Outcome of one command handler's `execute(bridge, params)`: the bridge
calls it performed, and the error it raised if any. -/
structure CmdResult where
  calls : List BridgeCall
  error : Option CmdError
deriving DecidableEq

/-- The `params` mapping of an Action: named, kind-dependent optional
arguments (spec §3, §4.4).  A CUSTOM action's callable is modelled by the
bridge calls it performs when invoked with a given bridge. -/
structure Params where
  url : Option String
  selector : Option Locator
  text : Option String
  file_path : Option String
  duration : Option Nat
  script : Option String
  args : Option (List String)
  handle : Option String
  frame : Option String
  callable : Option (Bridge → List BridgeCall)

/-- A `params` mapping with no entries. -/
def emptyParams : Params :=
  ⟨none, none, none, none, none, none, none, none, none, none⟩

/-- Modelled from the spec (§4.4 command table; module
`athesa/engine/commands.py` is absent from src/): NAVIGATE calls
`navigate(url)`. -/
def NavigateCommandHandler_execute (_b : Bridge) (p : Params) : CmdResult :=
  match p.url with
  | some u => ⟨[.navigate u], none⟩
  | none => ⟨[], some .missing_param⟩

/-- Modelled from the spec (§4.4): REFRESH calls `refresh_page()`. -/
def RefreshCommandHandler_execute (_b : Bridge) (_p : Params) : CmdResult :=
  ⟨[.refresh_page], none⟩

/-- Modelled from the spec (§4.4): CLICK calls `click(selector)`. -/
def ClickCommandHandler_execute (_b : Bridge) (p : Params) : CmdResult :=
  match p.selector with
  | some sel => ⟨[.click sel], none⟩
  | none => ⟨[], some .missing_param⟩

/-- Modelled from the spec (§4.4): TYPE calls `type_text(selector, text)`. -/
def TypeCommandHandler_execute (_b : Bridge) (p : Params) : CmdResult :=
  match p.selector, p.text with
  | some sel, some t => ⟨[.type_text sel t], none⟩
  | _, _ => ⟨[], some .missing_param⟩

/-- Modelled from the spec (§4.4): CLEAR calls `type_text(selector, "")`. -/
def ClearCommandHandler_execute (_b : Bridge) (p : Params) : CmdResult :=
  match p.selector with
  | some sel => ⟨[.type_text sel ""], none⟩
  | none => ⟨[], some .missing_param⟩

/-- Modelled from the spec (§4.4): UPLOAD_FILE calls
`upload_file(selector, file_path)`. -/
def UploadFileCommandHandler_execute (_b : Bridge) (p : Params) : CmdResult :=
  match p.selector, p.file_path with
  | some sel, some path => ⟨[.upload_file sel path], none⟩
  | _, _ => ⟨[], some .missing_param⟩

/-- Modelled from the spec (§4.4): WAIT performs a blocking sleep for
`duration` seconds on the calling thread. -/
def WaitCommandHandler_execute (_b : Bridge) (p : Params) : CmdResult :=
  match p.duration with
  | some d => ⟨[.sleep d], none⟩
  | none => ⟨[], some .missing_param⟩

/-- Modelled from the spec (§4.4): WAIT_FOR_CONDITION performs a
bridge-specific blocking wait until the condition holds or times out. -/
def WaitForConditionCommandHandler_execute (_b : Bridge) (_p : Params) : CmdResult :=
  ⟨[.wait_for_condition], none⟩

/-- Modelled from the spec (§4.4): EXECUTE_SCRIPT calls
`execute_script(script, ...args)`; omitted args mean a zero-arg call. -/
def ExecuteScriptCommandHandler_execute (_b : Bridge) (p : Params) : CmdResult :=
  match p.script with
  | some s => ⟨[.execute_script s (p.args.getD [])], none⟩
  | none => ⟨[], some .missing_param⟩

/-- Modelled from the spec (§4.4): SWITCH_WINDOW calls
`switch_to_window(handle)`. -/
def SwitchWindowCommandHandler_execute (_b : Bridge) (p : Params) : CmdResult :=
  match p.handle with
  | some h => ⟨[.switch_to_window h], none⟩
  | none => ⟨[], some .missing_param⟩

/-- Modelled from the spec (§4.4): CLOSE_WINDOW calls
`close_current_window()`. -/
def CloseWindowCommandHandler_execute (_b : Bridge) (_p : Params) : CmdResult :=
  ⟨[.close_current_window], none⟩

/-- Modelled from the spec (§4.4): OPEN_NEW_TAB calls
`execute_script("window.open(\x27\x27, \x27_blank\x27);")`. -/
def OpenNewTabCommandHandler_execute (_b : Bridge) (_p : Params) : CmdResult :=
  ⟨[.execute_script "window.open(\x27\x27, \x27_blank\x27);" []], none⟩

/-- Modelled from the spec (§4.4): SWITCH_TO_FRAME calls
`switch_to_frame(frame)`. -/
def SwitchToFrameCommandHandler_execute (_b : Bridge) (p : Params) : CmdResult :=
  match p.frame with
  | some f => ⟨[.switch_to_frame f], none⟩
  | none => ⟨[], some .missing_param⟩

/-- Modelled from the spec (§4.4): SWITCH_TO_DEFAULT calls
`switch_to_default_content()`. -/
def SwitchToDefaultCommandHandler_execute (_b : Bridge) (_p : Params) : CmdResult :=
  ⟨[.switch_to_default_content], none⟩

/-- Modelled from the spec (§4.4) and
`test_custom_command_handler_raises_without_callable`: CUSTOM invokes the
supplied callable with the bridge as its only argument; it fails with an
invalid-action error, making no bridge call, if `callable` is absent. -/
def CustomCommandHandler_execute (b : Bridge) (p : Params) : CmdResult :=
  match p.callable with
  | some f => ⟨f b, none⟩
  | none => ⟨[], some .invalid_action⟩

/-- Modelled from the spec (§4.4): the fixed command registry
(`create_command_registry`) dispatching each command kind to its handler. -/
def execute_command : ActionCommand → Bridge → Params → CmdResult
  | .NAVIGATE, b, p => NavigateCommandHandler_execute b p
  | .REFRESH, b, p => RefreshCommandHandler_execute b p
  | .CLICK, b, p => ClickCommandHandler_execute b p
  | .TYPE, b, p => TypeCommandHandler_execute b p
  | .CLEAR, b, p => ClearCommandHandler_execute b p
  | .UPLOAD_FILE, b, p => UploadFileCommandHandler_execute b p
  | .WAIT, b, p => WaitCommandHandler_execute b p
  | .WAIT_FOR_CONDITION, b, p => WaitForConditionCommandHandler_execute b p
  | .EXECUTE_SCRIPT, b, p => ExecuteScriptCommandHandler_execute b p
  | .SWITCH_WINDOW, b, p => SwitchWindowCommandHandler_execute b p
  | .CLOSE_WINDOW, b, p => CloseWindowCommandHandler_execute b p
  | .OPEN_NEW_TAB, b, p => OpenNewTabCommandHandler_execute b p
  | .SWITCH_TO_FRAME, b, p => SwitchToFrameCommandHandler_execute b p
  | .SWITCH_TO_DEFAULT, b, p => SwitchToDefaultCommandHandler_execute b p
  | .CUSTOM, b, p => CustomCommandHandler_execute b p

/-- An Action: a tagged command, its params, and an optional diagnostic
message (`athesa.core.action.Action` as used in the tests and example). -/
structure Action where
  command : ActionCommand
  params : Params
  message : Option String

/-- An ActionSequence: the ordered actions plus the next-state descriptor
to transition to after all actions complete (spec §3). -/
structure ActionSequence (σδ : Type) where
  actions : List Action
  next_state : σδ

/-- The events the Action Executor publishes while consuming a sequence. -/
inductive ExecEvent where
  | action_executed (a : Action)
  | action_failed (a : Action) (e : CmdError)

/-- Modelled from the spec (§4.4; the executor module is absent from
src/): run each action in order through its command handler; a success
publishes `action_executed(action)`, an error publishes
`action_failed(action, error)` and aborts the remainder of the sequence
(fail-fast).  Returns the bridge-call trace, the published events in
order, and whether every action succeeded. -/
def execute_actions (b : Bridge) : List Action → List BridgeCall × List ExecEvent × Bool
  | [] => ([], [], true)
  | a :: rest =>
    let r := execute_command a.command b a.params
    match r.error with
    | some err => (r.calls, [.action_failed a err], false)
    | none =>
      let t := execute_actions b rest
      (r.calls ++ t.1, .action_executed a :: t.2.1, t.2.2)

/-- Outcome of executing one ActionSequence: the owning state machine
afterwards, the bridge-call trace, the action events published, and
whether the whole sequence succeeded. -/
structure ExecResult (σ : Type) where
  machine : StateMachine σ
  calls : List BridgeCall
  events : List ExecEvent
  ok : Bool

/-- Modelled from the spec (§4.4): on full success of the sequence the
executor transitions the owning state machine to the sequence's
`next_state` (instantiated through the factory `mk`); on failure no
transition is performed. -/
def execute_sequence {σδ σ : Type} (b : Bridge) (sq : ActionSequence σδ)
    (m : StateMachine σ) (mk : σδ → σ) : ExecResult σ :=
  let t := execute_actions b sq.actions
  if t.2.2 then ⟨m.transition_to (mk sq.next_state), t.1, t.2.1, true⟩
  else ⟨m, t.1, t.2.1, false⟩

/-- The capability set of a current state the Runner consults during
detection: the expected-screen list it declares, and its optional
`on_detection_failed(context)` hook. -/
structure EngineState (τ κ : Type) where
  expected_screens : List τ
  on_detection_failed : Option (κ → κ)

/-- Unrecoverable errors of one Runner detection round. -/
inductive RunError where
  | detection_failure
  | handler_missing
deriving DecidableEq

/-- Result of one Runner detection round: a handler's sequence was
executed; or detection failed but the state's hook recovered and the run
continues with the updated shared context; or the run fails. -/
inductive StepResult (σ κ : Type) where
  | executed (r : ExecResult σ)
  | recovered (ctx : κ)
  | failed (e : RunError)

/-- Modelled from the spec (§4.5, steps 3–5 of the Runner's iteration; the
runner module is absent from src/): run the Screen Detector over the
global interrupts and the current state's expected screens; on a match,
look up the Handler registered for the matched screen-type, ask it for an
ActionSequence from the shared context and pass that to the Action
Executor; on no match, invoke the current state's `on_detection_failed`
hook with the shared context and continue, or fail with a
detection-failure error if the state declares no such hook. -/
def runner_detection_step {τ σδ σ κ : Type} [DecidableEq τ]
    (screens : List (ScreenDefinition τ)) (global_interrupts : List τ)
    (registry : τ → Option (κ → ActionSequence σδ)) (mk : σδ → σ)
    (b : Bridge) (m : StateMachine σ) (st : EngineState τ κ) (ctx : κ) :
    StepResult σ κ :=
  match (detect screens global_interrupts st.expected_screens b).found with
  | some scr =>
    match registry scr with
    | some handler => .executed (execute_sequence b (handler ctx) m mk)
    | none => .failed .handler_missing
  | none =>
    match st.on_detection_failed with
    | some hook => .recovered (hook ctx)
    | none => .failed .detection_failure

/-- Errors of the Process Registry (spec §4.6). -/
inductive RegistryError where
  | already_registered
  | not_found
deriving DecidableEq

/-- Modelled from the spec (§4.6; module `athesa/factory.py` is absent
from src/): a mapping from string key to process constructor, kept as an
ordered association list. -/
structure ProcessRegistry (π : Type) where
  bindings : List (String × π)

/-- Modelled from the spec (§4.6): `register(key, ctor, force)` fails with
an already-registered error when the key is bound and `force` is false;
with `force` it replaces the existing binding; a free key is simply
bound. -/
def ProcessRegistry.register {π : Type} (r : ProcessRegistry π) (key : String)
    (ctor : π) (force : Bool) : Except RegistryError (ProcessRegistry π) :=
  match r.bindings.find? (fun kv => kv.1 == key) with
  | some _ =>
    if force then
      .ok ⟨r.bindings.map (fun kv => if kv.1 == key then (key, ctor) else kv)⟩
    else
      .error .already_registered
  | none => .ok ⟨r.bindings ++ [(key, ctor)]⟩

/-- Modelled from the spec (§4.6): `get(key)` returns the bound constructor
or fails with a not-found error. -/
def ProcessRegistry.get {π : Type} (r : ProcessRegistry π) (key : String) :
    Except RegistryError π :=
  match r.bindings.find? (fun kv => kv.1 == key) with
  | some kv => .ok kv.2
  | none => .error .not_found

/-- Modelled from the spec (§4.6): `list()` returns all registered keys. -/
def ProcessRegistry.list {π : Type} (r : ProcessRegistry π) : List String :=
  r.bindings.map Prod.fst

/-- Modelled from the spec (§4.6): `create(key)` constructs and returns a
new process instance from the bound constructor. -/
def ProcessRegistry.create {ι : Type} (r : ProcessRegistry (Unit → ι))
    (key : String) : Except RegistryError ι :=
  (r.get key).map (fun ctor => ctor ())

/-- Screen types of the basic_login example
(`src/examples/basic_login/process.py`, `LoginScreens`). -/
inductive LoginScreens where
  | USERNAME_SCREEN
  | PASSWORD_SCREEN
  | ERROR_SCREEN
  | SUCCESS_SCREEN
deriving DecidableEq

/-- State tags of the basic_login example: each Python state class
(`LoginInitialState`, …) is identified by its tag; the spec's design notes
model class-as-value descriptors as a tagged variant plus a factory. -/
inductive LoginState where
  | LoginInitialState
  | UsernameEnteredState
  | PasswordEnteredState
  | LoginSuccessState
  | LoginFailedState
deriving DecidableEq

/-- The caller-owned shared context of the example: a credentials bag. -/
structure ProcessContext where
  credentials : List (String × String)

/-- From `src/examples/basic_login/process.py`:
`ErrorScreenHandler.create_action_sequence` returns an empty action list
with `next_state=LoginFailedState` — a terminal screen whose only effect
is the transition. -/
def ErrorScreenHandler_create_action_sequence (_ctx : ProcessContext) :
    ActionSequence LoginState :=
  ⟨[], .LoginFailedState⟩

/-- From `src/examples/basic_login/process.py`:
`SuccessScreenHandler.create_action_sequence` returns an empty action list
with `next_state=LoginSuccessState`. -/
def SuccessScreenHandler_create_action_sequence (_ctx : ProcessContext) :
    ActionSequence LoginState :=
  ⟨[], .LoginSuccessState⟩

/-- One registered subscriber of the event bus: the event name it listens
to, an identifier standing for its callback, and whether it was registered
with `add_listener_once` (self-unregistering after its first invocation). -/
structure Listener where
  event : String
  cb : Nat
  once : Bool
deriving DecidableEq

/-- Modelled from the spec (§4.1; module `athesa/events/emitter.py` is
absent from src/): the event bus holds an ordered list of registered
subscribers per event name (kept here as one ordered list tagged with
names, preserving registration order). -/
structure EventEmitter where
  listeners : List Listener
deriving DecidableEq

/-- Modelled from the spec (§4.1): `subscribe` appends a persistent
listener in registration order. -/
def EventEmitter.add_listener (e : EventEmitter) (name : String) (cb : Nat) : EventEmitter :=
  ⟨e.listeners ++ [⟨name, cb, false⟩]⟩

/-- Modelled from the spec (§4.1): `subscribeOnce` appends a listener that
unregisters itself after its first invocation. -/
def EventEmitter.add_listener_once (e : EventEmitter) (name : String) (cb : Nat) : EventEmitter :=
  ⟨e.listeners ++ [⟨name, cb, true⟩]⟩

/-- The callbacks a `publish` of `name` invokes: every currently-registered
callback for that name, in registration order (spec §4.1). -/
def EventEmitter.invoked (e : EventEmitter) (name : String) : List Nat :=
  (e.listeners.filter (fun l => l.event == name)).map Listener.cb

/-- Modelled from the spec (§4.1): the bus state after a `publish` of
`name` — every once-listener for that name has unregistered itself, all
other listeners remain in order. -/
def EventEmitter.emit (e : EventEmitter) (name : String) : EventEmitter :=
  ⟨e.listeners.filter (fun l => !(l.event == name && l.once))⟩

/-- Publish a sequence of events in order, recording for each publish the
list of callbacks it invoked. -/
def run_emits (e : EventEmitter) : List String → List (List Nat)
  | [] => []
  | n :: rest => e.invoked n :: run_emits (e.emit n) rest

/-- Whether callback identifier `cb` occurs among the registered listeners. -/
def hasCb (e : EventEmitter) (cb : Nat) : Bool :=
  e.listeners.any (fun l => l.cb == cb)

/-- The invocation-count pattern C5 predicts for a once-listener on `n`
over a publish sequence: 1 at the first publish of `n`, 0 everywhere else. -/
def firstHit (n : String) : List String → List Nat
  | [] => []
  | m :: rest => if m = n then 1 :: rest.map (fun _ => 0) else 0 :: firstHit n rest

lemma run_transitions_events {σ : Type} (m : StateMachine σ) (ss : List σ) :
    (run_transitions m ss).events = m.events ++ transition_pairs m.current_state ss ∧
      (run_transitions m ss).current_state = (transition_pairs m.current_state ss).foldl (fun _ p => p.2) m.current_state := by
  induction ss generalizing m with
  | nil => simp [run_transitions, transition_pairs]
  | cons s rest ih =>
    have h := ih (m.transition_to s)
    simp only [run_transitions, List.foldl_cons] at h ⊢
    simp [transition_pairs, StateMachine.transition_to] at h ⊢
    rw [h.1, h.2]
    simp

lemma transition_pairs_snd {σ : Type} (c : σ) (ss : List σ) :
    (transition_pairs c ss).map Prod.snd = ss := by
  induction ss generalizing c with
  | nil => simp [transition_pairs]
  | cons s rest ih => simp [transition_pairs, ih]

lemma transition_pairs_fst {σ : Type} (c : σ) (ss : List σ) :
    (transition_pairs c ss).map Prod.fst = (c :: ss).dropLast := by
  induction ss generalizing c with
  | nil => simp [transition_pairs]
  | cons s rest ih =>
    cases rest with
    | nil => simp [transition_pairs]
    | cons t u =>
      have h := ih s
      simp only [transition_pairs, List.map_cons] at h ⊢
      rw [h]
      simp

/-- C1: for every sequence of `transition_to` calls on a freshly constructed
StateMachine, the `state_changed` events published, in order, have `new`
arguments equal to exactly the sequence of state instances passed, and each
event's `old` argument equals the state that was current immediately before
that call (the initial state for the first event, the previously passed
state for each later one). -/
theorem transitionTo_event_log {σ : Type} (descr : Unit → σ) (name : String) (ss : List σ) :
    (run_transitions (mkStateMachine descr name) ss).events = transition_pairs (descr ()) ss ∧
      (transition_pairs (descr ()) ss).map Prod.snd = ss ∧
      (transition_pairs (descr ()) ss).map Prod.fst = (descr () :: ss).dropLast := by
  refine ⟨?_, transition_pairs_snd _ _, transition_pairs_fst _ _⟩
  have h := (run_transitions_events (mkStateMachine descr name) ss).1
  simpa [mkStateMachine] using h

lemma invoked_count_zero (e : EventEmitter) (cb : Nat) (n : String)
    (h : hasCb e cb = false) : (e.invoked n).count cb = 0 := by
  rw [List.count_eq_zero]
  intro hmem
  simp only [EventEmitter.invoked, List.mem_map, List.mem_filter] at hmem
  obtain ⟨l, ⟨hl, _⟩, hcb⟩ := hmem
  simp only [hasCb, List.any_eq_false] at h
  exact absurd (by simp [hcb]) (h l hl)

lemma hasCb_emit (e : EventEmitter) (cb : Nat) (n : String)
    (h : hasCb e cb = false) : hasCb (e.emit n) cb = false := by
  simp only [hasCb, List.any_eq_false, EventEmitter.emit, List.mem_filter] at h ⊢
  intro l hl
  exact h l hl.1

lemma run_emits_count_zero (e : EventEmitter) (cb : Nat) (names : List String)
    (h : hasCb e cb = false) :
    (run_emits e names).map (fun l => l.count cb) = names.map (fun _ => 0) := by
  induction names generalizing e with
  | nil => rfl
  | cons n rest ih =>
    simp only [run_emits, List.map_cons]
    rw [invoked_count_zero e cb n h, ih (e.emit n) (hasCb_emit e cb n h)]

lemma invoked_add_once (e : EventEmitter) (n m : String) (cb : Nat) :
    (e.add_listener_once n cb).invoked m
      = e.invoked m ++ (if n = m then [cb] else []) := by
  simp only [EventEmitter.invoked, EventEmitter.add_listener_once, List.filter_append,
    List.map_append]
  congr 1
  by_cases h : n = m
  · simp [h, List.filter]
  · have hb : (n == m) = false := by simp [h]
    simp [List.filter, hb, h]

lemma emit_add_once_ne (e : EventEmitter) (n m : String) (cb : Nat) (h : ¬ n = m) :
    (e.add_listener_once n cb).emit m = (e.emit m).add_listener_once n cb := by
  simp only [EventEmitter.emit, EventEmitter.add_listener_once, List.filter_append]
  congr 1
  have hb : (n == m) = false := by simp [h]
  simp [List.filter, hb]

lemma emit_add_once_eq (e : EventEmitter) (n : String) (cb : Nat) :
    (e.add_listener_once n cb).emit n = e.emit n := by
  simp only [EventEmitter.emit, EventEmitter.add_listener_once, List.filter_append]
  simp [List.filter]

/-- C5: a callback registered via `add_listener_once` for an event name is
invoked on exactly the first publish of that event name after registration
and never again, no matter how many further publishes occur: over any
publish sequence, its per-publish invocation counts are 1 at the first
publish of its name and 0 at every other publish. -/
theorem subscribeOnce_fires_exactly_once (e : EventEmitter) (n : String) (cb : Nat)
    (names : List String) (h : hasCb e cb = false) :
    (run_emits (e.add_listener_once n cb) names).map (fun l => l.count cb)
      = firstHit n names := by
  induction names generalizing e with
  | nil => rfl
  | cons m rest ih =>
    simp only [run_emits, List.map_cons, firstHit]
    by_cases hm : m = n
    · subst hm
      rw [if_pos rfl, invoked_add_once, if_pos rfl, List.count_append,
        invoked_count_zero e cb m h, emit_add_once_eq,
        run_emits_count_zero (e.emit m) cb rest (hasCb_emit e cb m h)]
      simp
    · rw [if_neg hm, invoked_add_once, if_neg (fun hnm => hm hnm.symm), List.append_nil,
        invoked_count_zero e cb m h, emit_add_once_ne e n m cb (fun hnm => hm hnm.symm),
        ih (e.emit m) (hasCb_emit e cb m h)]

/-- Witness for C5 at a concrete bus and publish sequence (mirroring
`test_event_listener_removal`: three publishes of the registered name). -/
theorem subscribeOnce_fires_exactly_once_witness :
    hasCb ⟨[]⟩ 0 = false ∧
      (run_emits ((⟨[]⟩ : EventEmitter).add_listener_once "process:started" 0)
          ["process:started", "process:started", "process:started"]).map (fun l => l.count 0)
        = firstHit "process:started" ["process:started", "process:started", "process:started"] :=
  ⟨rfl, subscribeOnce_fires_exactly_once ⟨[]⟩ "process:started" 0
    ["process:started", "process:started", "process:started"] rfl⟩

/-- C4: `reset(S)` sets `current_state` to a freshly constructed instance of
the descriptor `S` and publishes no `state_changed` event; the machine's
other observables (its event log and its name) are unchanged. -/
theorem reset_fresh_and_silent {σ : Type} (m : StateMachine σ) (descr : Unit → σ) :
    (m.reset descr).current_state = descr () ∧
      (m.reset descr).events = m.events ∧
      (m.reset descr).name = m.name := by
  refine ⟨rfl, rfl, rfl⟩

lemma detectFrom_spec {τ : Type} [DecidableEq τ] (screens : List (ScreenDefinition τ))
    (b : Bridge) (cs : List τ) :
    detectFrom screens b cs
      = ⟨cs.find? (fun c => (candidateProbe screens b c).1),
          (match cs.find? (fun c => (candidateProbe screens b c).1) with
            | some c => [c]
            | none => []),
          (cs.takeWhile (fun c => !(candidateProbe screens b c).1)).flatMap
              (fun c => (candidateProbe screens b c).2)
            ++ (match cs.find? (fun c => (candidateProbe screens b c).1) with
                | some c => (candidateProbe screens b c).2
                | none => [])⟩ := by
  induction cs with
  | nil => rfl
  | cons c rest ih =>
    cases hp : (candidateProbe screens b c).1 with
    | true =>
      simp [detectFrom, hp, List.find?_cons, List.takeWhile_cons]
    | false =>
      simp [detectFrom, hp, List.find?_cons, List.takeWhile_cons, ih]

/-- C2: screen detection checks the process's global-interrupt screen
types first, in declaration order, then the current state's expected
screen types in their declared order; each candidate is probed through the
strategy bound to its screen definition's `detection_strategy` tag, the
first candidate whose strategy returns true is returned with a
`screen_detected` event published and detection stops there (candidates
after the match are never probed); if no candidate matches, detection
fails and no event is published. -/
theorem detect_first_match_wins {τ : Type} [DecidableEq τ]
    (screens : List (ScreenDefinition τ)) (gi expected : List τ) (b : Bridge) :
    (detect screens gi expected b).found
        = (gi ++ expected).find? (fun c => (candidateProbe screens b c).1) ∧
      (detect screens gi expected b).events
        = (match (gi ++ expected).find? (fun c => (candidateProbe screens b c).1) with
            | some c => [c]
            | none => []) ∧
      (detect screens gi expected b).calls
        = ((gi ++ expected).takeWhile (fun c => !(candidateProbe screens b c).1)).flatMap
              (fun c => (candidateProbe screens b c).2)
          ++ (match (gi ++ expected).find? (fun c => (candidateProbe screens b c).1) with
              | some c => (candidateProbe screens b c).2
              | none => []) := by
  unfold detect
  rw [detectFrom_spec]
  exact ⟨rfl, rfl, rfl⟩

/-- C6: the visible-and-enabled strategy returns exactly the bridge's
visibility-check result and never makes an existence check; the
presence-only strategy returns exactly the bridge's existence-check result
and never makes a visibility check; the custom strategy returns true
unconditionally and makes no bridge call at all. -/
theorem strategy_variants_behave (b : Bridge) (loc : Locator) :
    ((strategy_is_present .VISIBLE_AND_ENABLED b loc).1 = b.is_visible loc ∧
        (strategy_is_present .VISIBLE_AND_ENABLED b loc).2.countP
          (fun c => c.isExistenceCheck) = 0) ∧
      ((strategy_is_present .PRESENCE_ONLY b loc).1 = b.is_existing loc ∧
        (strategy_is_present .PRESENCE_ONLY b loc).2.countP
          (fun c => c.isVisibilityCheck) = 0) ∧
      (strategy_is_present .CUSTOM b loc).1 = true ∧
      (strategy_is_present .CUSTOM b loc).2 = [] := by
  refine ⟨⟨rfl, ?_⟩, ⟨rfl, ?_⟩, rfl, rfl⟩ <;>
    simp [strategy_is_present, BridgeCall.isExistenceCheck, BridgeCall.isVisibilityCheck]

/-- C3: when detection fails (no candidate matched) in a run whose current
state declares an `on_detection_failed` hook, the Runner invokes that hook
with the shared context and the run continues; when the current state
declares no such hook, the run fails with a detection-failure error. -/
theorem detection_failure_uses_hook {τ σδ σ κ : Type} [DecidableEq τ]
    (screens : List (ScreenDefinition τ)) (gi : List τ)
    (registry : τ → Option (κ → ActionSequence σδ)) (mk : σδ → σ)
    (b : Bridge) (m : StateMachine σ) (st : EngineState τ κ) (ctx : κ)
    (h : (detect screens gi st.expected_screens b).found = none) :
    (∀ hook, st.on_detection_failed = some hook →
        runner_detection_step screens gi registry mk b m st ctx = .recovered (hook ctx)) ∧
      (st.on_detection_failed = none →
        runner_detection_step screens gi registry mk b m st ctx
          = .failed .detection_failure) := by
  constructor
  · intro hook hh
    simp [runner_detection_step, h, hh]
  · intro hh
    simp [runner_detection_step, h, hh]

/-- Witness for C3 at a concrete run: an empty screens table (so detection
fails), once with an identity hook and once without any hook. -/
theorem detection_failure_uses_hook_witness :
    runner_detection_step ([] : List (ScreenDefinition LoginScreens)) []
          (fun _ => (none : Option (ProcessContext → ActionSequence LoginState)))
          (fun d => d) ⟨fun _ => false, fun _ => false⟩
          (⟨.LoginInitialState, "basic_login", []⟩ : StateMachine LoginState)
          ⟨[], some (fun c => c)⟩ ⟨[]⟩
        = .recovered ⟨[]⟩ ∧
      runner_detection_step ([] : List (ScreenDefinition LoginScreens)) []
          (fun _ => (none : Option (ProcessContext → ActionSequence LoginState)))
          (fun d => d) ⟨fun _ => false, fun _ => false⟩
          (⟨.LoginInitialState, "basic_login", []⟩ : StateMachine LoginState)
          ⟨[], none⟩ ⟨[]⟩
        = .failed .detection_failure :=
  ⟨(detection_failure_uses_hook ([] : List (ScreenDefinition LoginScreens)) []
      (fun _ => (none : Option (ProcessContext → ActionSequence LoginState)))
      (fun d => d) ⟨fun _ => false, fun _ => false⟩
      (⟨.LoginInitialState, "basic_login", []⟩ : StateMachine LoginState)
      ⟨[], some (fun c => c)⟩ ⟨[]⟩ rfl).1 (fun c => c) rfl,
    (detection_failure_uses_hook ([] : List (ScreenDefinition LoginScreens)) []
      (fun _ => (none : Option (ProcessContext → ActionSequence LoginState)))
      (fun d => d) ⟨fun _ => false, fun _ => false⟩
      (⟨.LoginInitialState, "basic_login", []⟩ : StateMachine LoginState)
      ⟨[], none⟩ ⟨[]⟩ rfl).2 rfl⟩

lemma find?_of_register_free {π : Type} (r : ProcessRegistry π) (key : String)
    (ctor : π) (r' : ProcessRegistry π)
    (h : r.register key ctor false = .ok r') :
    r.bindings.find? (fun kv => kv.1 == key) = none
      ∧ r' = ⟨r.bindings ++ [(key, ctor)]⟩ := by
  unfold ProcessRegistry.register at h
  cases hf : r.bindings.find? (fun kv => kv.1 == key) with
  | some kv => rw [hf] at h; simp at h
  | none =>
    rw [hf] at h
    simp only [Except.ok.injEq] at h
    exact ⟨rfl, h.symm⟩

/-- C7: on a ProcessRegistry, `register(key, C)` followed by
`register(key, C2)` without `force` fails with an already-registered
error, leaving the original binding of `C` intact (`get(key)` still
returns `C`), while `register(key, C2, force=True)` succeeds and a
subsequent `create(key)` yields an instance built from `C2`. -/
theorem register_conflict_and_force {ι : Type} (r : ProcessRegistry (Unit → ι))
    (key : String) (C C2 : Unit → ι) (r' : ProcessRegistry (Unit → ι))
    (h : r.register key C false = .ok r') :
    r'.register key C2 false = .error .already_registered ∧
      r'.get key = .ok C ∧
      (match r'.register key C2 true with
        | .ok r'' => r''.create key = .ok (C2 ())
        | .error _ => False) := by
  obtain ⟨hf, hr⟩ := find?_of_register_free r key C r' h
  subst hr
  have hall : ∀ kv ∈ r.bindings, ¬((kv.1 == key) = true) := List.find?_eq_none.mp hf
  have hfind : (r.bindings ++ [(key, C)]).find? (fun kv => kv.1 == key)
      = some (key, C) := by
    rw [List.find?_append, hf]
    simp
  have hmap : (r.bindings ++ [(key, C)]).map
      (fun kv => if kv.1 == key then (key, C2) else kv)
      = r.bindings ++ [(key, C2)] := by
    rw [List.map_append]
    congr 1
    · calc r.bindings.map (fun kv => if kv.1 == key then (key, C2) else kv)
          = r.bindings.map id := by
            apply List.map_congr_left
            intro kv hkv
            simp [hall kv hkv]
        _ = r.bindings := List.map_id r.bindings
    · simp
  have hfind2 : (r.bindings ++ [(key, C2)]).find? (fun kv => kv.1 == key)
      = some (key, C2) := by
    rw [List.find?_append, hf]
    simp
  refine ⟨?_, ?_, ?_⟩
  · simp [ProcessRegistry.register, hfind]
  · simp [ProcessRegistry.get, hfind]
  · simp only [ProcessRegistry.register, hfind]
    show (ProcessRegistry.mk ((r.bindings ++ [(key, C)]).map
        (fun kv => if kv.1 == key then (key, C2) else kv))).create key
      = Except.ok (C2 ())
    rw [hmap]
    simp [ProcessRegistry.create, ProcessRegistry.get, hfind2, Except.map]

/-- Witness for C7 at a concrete registry: an empty registry, key
"login", and two distinct constructors (mirroring
`test_hot_reload_processes`). -/
theorem register_conflict_and_force_witness :
    (ProcessRegistry.mk [("login", fun (_ : Unit) => (1 : Nat))]).register "login"
        (fun _ => 2) false = .error .already_registered ∧
      (ProcessRegistry.mk [("login", fun (_ : Unit) => (1 : Nat))]).get "login"
        = .ok (fun _ => 1) ∧
      (match (ProcessRegistry.mk [("login", fun (_ : Unit) => (1 : Nat))]).register "login"
          (fun _ => 2) true with
        | .ok r'' => r''.create "login" = .ok 2
        | .error _ => False) :=
  register_conflict_and_force ⟨[]⟩ "login" (fun (_ : Unit) => (1 : Nat)) (fun _ => 2)
    ⟨[("login", fun _ => 1)]⟩ rfl

/-- C8: executing a CUSTOM action whose params lack a `callable` entry
fails with an invalid-action error and makes no bridge call; when
`callable` is present, the handler invokes it with the bridge as its only
argument (the execution's bridge calls are exactly those the callable
performs on that bridge). -/
theorem custom_requires_callable (b : Bridge) (p : Params) :
    (p.callable = none →
        execute_command .CUSTOM b p = ⟨[], some .invalid_action⟩) ∧
      (∀ f, p.callable = some f →
        execute_command .CUSTOM b p = ⟨f b, none⟩) := by
  constructor
  · intro h
    simp [execute_command, CustomCommandHandler_execute, h]
  · intro f h
    simp [execute_command, CustomCommandHandler_execute, h]

/-- Witness for C8 at a concrete bridge and params, with and without a
callable. -/
theorem custom_requires_callable_witness :
    execute_command .CUSTOM ⟨fun _ => true, fun _ => true⟩ emptyParams
        = ⟨[], some .invalid_action⟩ ∧
      execute_command .CUSTOM ⟨fun _ => true, fun _ => true⟩
          { emptyParams with callable := some (fun _ => [.refresh_page]) }
        = ⟨[.refresh_page], none⟩ :=
  ⟨(custom_requires_callable ⟨fun _ => true, fun _ => true⟩ emptyParams).1 rfl,
    (custom_requires_callable ⟨fun _ => true, fun _ => true⟩
        { emptyParams with callable := some (fun _ => [.refresh_page]) }).2
      (fun _ => [.refresh_page]) rfl⟩

/-- C9: for every bridge and selector, executing a CLEAR command is
exactly equivalent to executing a TYPE command with the same selector and
the empty string as text: both produce the single bridge call
`type_text(selector, "")` and no error. -/
theorem clear_equals_type_empty (b : Bridge) (p : Params) (sel : Locator)
    (h : p.selector = some sel) :
    execute_command .CLEAR b p
        = execute_command .TYPE b { p with text := some "" } ∧
      execute_command .CLEAR b p = ⟨[.type_text sel ""], none⟩ := by
  have hc : execute_command .CLEAR b p = ⟨[.type_text sel ""], none⟩ := by
    simp [execute_command, ClearCommandHandler_execute, h]
  have ht : execute_command .TYPE b { p with text := some "" }
      = ⟨[.type_text sel ""], none⟩ := by
    simp [execute_command, TypeCommandHandler_execute, h]
  exact ⟨hc.trans ht.symm, hc⟩

/-- Witness for C9 at a concrete bridge and selector (the email input of
the example). -/
theorem clear_equals_type_empty_witness :
    execute_command .CLEAR ⟨fun _ => true, fun _ => true⟩
          { emptyParams with selector := some ("css selector", "input") }
        = execute_command .TYPE ⟨fun _ => true, fun _ => true⟩
          { { emptyParams with selector := some ("css selector", "input") } with
              text := some "" } ∧
      execute_command .CLEAR ⟨fun _ => true, fun _ => true⟩
          { emptyParams with selector := some ("css selector", "input") }
        = ⟨[.type_text ("css selector", "input") ""], none⟩ :=
  clear_equals_type_empty ⟨fun _ => true, fun _ => true⟩
    { emptyParams with selector := some ("css selector", "input") }
    ("css selector", "input") rfl

/-- C10: executing an ActionSequence whose actions list is empty makes no
bridge call and publishes no `action_executed` or `action_failed` event,
yet still transitions the state machine to the sequence's `next_state`
(the transition itself is the only effect). -/
theorem empty_sequence_only_transitions {σδ σ : Type} (b : Bridge)
    (sq : ActionSequence σδ) (m : StateMachine σ) (mk : σδ → σ)
    (h : sq.actions = []) :
    execute_sequence b sq m mk
      = ⟨m.transition_to (mk sq.next_state), [], [], true⟩ := by
  unfold execute_sequence
  rw [h]
  rfl

/-- Witness for C10 using the example's terminal-screen handler: the
`ErrorScreenHandler` of basic_login returns an empty sequence whose
execution only transitions the machine to `LoginFailedState`. -/
theorem empty_sequence_only_transitions_witness :
    execute_sequence ⟨fun _ => true, fun _ => true⟩
        (ErrorScreenHandler_create_action_sequence ⟨[]⟩)
        (⟨.PasswordEnteredState, "basic_login", []⟩ : StateMachine LoginState)
        (fun d => d)
      = ⟨StateMachine.transition_to ⟨.PasswordEnteredState, "basic_login", []⟩
          .LoginFailedState, [], [], true⟩ :=
  empty_sequence_only_transitions ⟨fun _ => true, fun _ => true⟩
    (ErrorScreenHandler_create_action_sequence ⟨[]⟩)
    ⟨.PasswordEnteredState, "basic_login", []⟩ (fun d => d) rfl

end Athesa
